import Mathlib

/-!
Shallow embedding of the GoatMouth odds API pricing-and-settlement core.

Pure numeric code is translated over ℚ (JS numbers carry no overflow here;
all inputs of interest are exact decimals).  Fallible functions return
`Except Err`.  The six-write settlement commit is modelled as a state
transformer over an explicit database state together with a pattern of
per-write persistence failures.
-/

namespace GoatmouthOdds

/-- Error kinds thrown by the services (one constructor per distinct
`throw` site / error code relevant to the claims). -/
inductive Err where
  | invalidAmount
  | poolExhausted
  | degeneratePool
  | nonpositivePool
  | invariantViolation
  | invalidProbability
  | poolTooSmall
  | poolTooLarge
  | zeroTokens
  | persistenceFailure
  | targetPriceOutOfRange
  deriving DecidableEq, Repr

/-- Bet outcome: the market is binary. -/
inductive Outcome where
  | yes
  | no
  deriving DecidableEq, Repr

/-! ## OddsCalculationService (src/src/services/oddsCalculation.service.js) -/

/-- `calculateYesPrice(yesPool, noPool)`: `noPool / (yesPool + noPool)`,
throws if the total pool is zero. -/
def calculateYesPrice (yesPool noPool : ℚ) : Except Err ℚ :=
  let totalPool := yesPool + noPool
  if totalPool = 0 then .error .degeneratePool
  else .ok (noPool / totalPool)

/-- `calculateNoPrice(yesPool, noPool)`: `yesPool / (yesPool + noPool)`,
throws if the total pool is zero. -/
def calculateNoPrice (yesPool noPool : ℚ) : Except Err ℚ :=
  let totalPool := yesPool + noPool
  if totalPool = 0 then .error .degeneratePool
  else .ok (yesPool / totalPool)

/-- `calculateLiquidityConstant(yesPool, noPool) = yesPool * noPool`. -/
def calculateLiquidityConstant (yesPool noPool : ℚ) : ℚ :=
  yesPool * noPool

/-- `calculateTokensReceived(betAmount, inputPool, outputPool, k)`:
CPMM token output with the source's three guards, in source order. -/
def calculateTokensReceived (betAmount inputPool outputPool k : ℚ) :
    Except Err ℚ :=
  if betAmount ≤ 0 then .error .invalidAmount
  else
    let newInputPool := inputPool + betAmount
    let newOutputPool := k / newInputPool
    let tokensOut := outputPool - newOutputPool
    if tokensOut ≥ outputPool then .error .poolExhausted
    else if tokensOut ≤ 0 then .error .poolExhausted
    else .ok tokensOut

/-- `calculateEffectivePrice(betAmount, tokensReceived)`:
`betAmount / (betAmount + tokensReceived)`; throws on zero tokens. -/
def calculateEffectivePrice (betAmount tokensReceived : ℚ) : Except Err ℚ :=
  if tokensReceived = 0 then .error .zeroTokens
  else .ok (betAmount / (betAmount + tokensReceived))

/-- `calculateSlippage(initialPrice, effectivePrice)`:
`|effectivePrice - initialPrice| / initialPrice`, 0 when the initial
price is 0. -/
def calculateSlippage (initialPrice effectivePrice : ℚ) : ℚ :=
  if initialPrice = 0 then 0
  else |(effectivePrice - initialPrice) / initialPrice|

/-- `calculatePriceImpact(currentPrice, newPrice)`. -/
def calculatePriceImpact (currentPrice newPrice : ℚ) : ℚ :=
  if currentPrice = 0 then 0
  else |(newPrice - currentPrice) / currentPrice|

/-- `validatePoolState(yesPool, noPool, k)`: rejects nonpositive pools,
then rejects when `(|yesPool*noPool - k| / k) * 100 > 0.01`
(a 0.01% relative tolerance). -/
def validatePoolState (yesPool noPool k : ℚ) : Except Err Bool :=
  if yesPool ≤ 0 ∨ noPool ≤ 0 then .error .nonpositivePool
  else
    let calculatedK := yesPool * noPool
    let kDifference := |calculatedK - k|
    let percentageDiff := kDifference / k * 100
    if percentageDiff > 1 / 100 then .error .invariantViolation
    else .ok true

/-! ## HouseMarginService (src/unnamed/part_003, lines 11-231) -/

/-- The process-wide fee rate; the source defaults `HOUSE_MARGIN` to 0.02. -/
def HOUSE_MARGIN : ℚ := 1 / 50

/-- Result of `applyMargin`. -/
structure MarginResult where
  grossAmount : ℚ
  netAmount : ℚ
  houseFee : ℚ
  deriving DecidableEq, Repr

/-- `applyMargin(betAmount)`: fee = amount * HOUSE_MARGIN,
net = amount - fee; throws on nonpositive amount. -/
def applyMargin (betAmount : ℚ) : Except Err MarginResult :=
  if betAmount ≤ 0 then .error .invalidAmount
  else
    let houseFee := betAmount * HOUSE_MARGIN
    let netAmount := betAmount - houseFee
    .ok { grossAmount := betAmount, netAmount := netAmount, houseFee := houseFee }

/-! ## OddsConverterService (src/src/services/oddsConverter.service.js) -/

/-- `probabilityToOdds(p) = 1/p`; throws unless `0 < p < 1`. -/
def probabilityToOdds (probability : ℚ) : Except Err ℚ :=
  if probability ≤ 0 ∨ probability ≥ 1 then .error .invalidProbability
  else .ok (1 / probability)

/-- Pair of decimal odds returned by `calculateOddsFromVolume`. -/
structure VolumeOdds where
  yesOdds : ℚ
  noOdds : ℚ
  deriving DecidableEq, Repr

/-- `calculateOddsFromVolume(yesVolume, noVolume)`: even 2.0 odds when the
total volume is 0, otherwise converts the opposite-side volume shares
through `probabilityToOdds`. -/
def calculateOddsFromVolume (yesVolume noVolume : ℚ) : Except Err VolumeOdds :=
  let totalVolume := yesVolume + noVolume
  if totalVolume = 0 then .ok { yesOdds := 2, noOdds := 2 }
  else do
    let yesProbability := noVolume / totalVolume
    let noProbability := yesVolume / totalVolume
    let yesOdds ← probabilityToOdds yesProbability
    let noOdds ← probabilityToOdds noProbability
    pure { yesOdds := yesOdds, noOdds := noOdds }

/-! ## LiquidityPoolService (src/unnamed/part_002) -/

/-- `MIN_POOL_SIZE` from the source constructor. -/
def MIN_POOL_SIZE : ℚ := 100

/-- `MAX_POOL_SIZE` from the source constructor. -/
def MAX_POOL_SIZE : ℚ := 100000

/-- `validatePoolSize(poolSize)`: throws below `MIN_POOL_SIZE` or above
`MAX_POOL_SIZE`. -/
def validatePoolSize (poolSize : ℚ) : Except Err Bool :=
  if poolSize < MIN_POOL_SIZE then .error .poolTooSmall
  else if poolSize > MAX_POOL_SIZE then .error .poolTooLarge
  else .ok true

/-- Pool returned by the initializers. -/
structure PoolInit where
  yesPool : ℚ
  noPool : ℚ
  liquidityConstant : ℚ
  initialPoolSize : ℚ
  initialYesPrice : ℚ
  initialNoPrice : ℚ
  deriving DecidableEq, Repr

/-- `initializeAsymmetricPool(totalLiquidity, targetYesPrice)`: price-range
guard first, then `validatePoolSize(totalLiquidity / 2)`, then the split
`noPool = totalLiquidity * targetYesPrice`. -/
def initializeAsymmetricPool (totalLiquidity targetYesPrice : ℚ) :
    Except Err PoolInit :=
  if targetYesPrice ≤ 0 ∨ targetYesPrice ≥ 1 then .error .targetPriceOutOfRange
  else do
    _ ← validatePoolSize (totalLiquidity / 2)
    let noPool := totalLiquidity * targetYesPrice
    let yesPool := totalLiquidity - noPool
    let k := calculateLiquidityConstant yesPool noPool
    pure { yesPool := yesPool, noPool := noPool, liquidityConstant := k,
           initialPoolSize := totalLiquidity / 2,
           initialYesPrice := targetYesPrice,
           initialNoPrice := 1 - targetYesPrice }

/-! ## BettingService.placeBet, pure pricing part (src/unnamed/part_003,
lines 267-361): margin, pre-trade invariant check, CPMM tokens, new pools
and prices, post-trade constant-product check. -/

/-- The inline post-trade constant-product check of `placeBet` (step 8):
`if (Math.abs(newK - k) > 0.01) throw` — an absolute 0.01 tolerance. -/
def placeBetPostCheck (yesPoolAfter noPoolAfter k : ℚ) : Except Err Unit :=
  let newK := yesPoolAfter * noPoolAfter
  if |newK - k| > 1 / 100 then .error .invariantViolation
  else .ok ()

/-- The numeric summary assembled by `placeBet` before the database writes. -/
structure BetComputation where
  grossAmount : ℚ
  netAmount : ℚ
  houseFee : ℚ
  tokensReceived : ℚ
  effectivePrice : ℚ
  slippage : ℚ
  priceBeforeBet : ℚ
  yesPoolAfter : ℚ
  noPoolAfter : ℚ
  newYesPrice : ℚ
  newNoPrice : ℚ
  deriving DecidableEq, Repr

/-- Pure pricing pipeline of `placeBet` (steps 3-8 of the source),
from the market snapshot to the computation handed to
`executeTransaction`. -/
def placeBetPure (outcome : Outcome) (betAmount yesPoolBefore noPoolBefore k : ℚ) :
    Except Err BetComputation := do
  let m ← applyMargin betAmount
  _ ← validatePoolState yesPoolBefore noPoolBefore k
  let priceBeforeBet ← match outcome with
    | .yes => calculateYesPrice yesPoolBefore noPoolBefore
    | .no => calculateNoPrice yesPoolBefore noPoolBefore
  let tokensReceived ← match outcome with
    | .yes => calculateTokensReceived m.netAmount noPoolBefore yesPoolBefore k
    | .no => calculateTokensReceived m.netAmount yesPoolBefore noPoolBefore k
  let yesPoolAfter := match outcome with
    | .yes => yesPoolBefore - tokensReceived
    | .no => yesPoolBefore + m.netAmount
  let noPoolAfter := match outcome with
    | .yes => noPoolBefore + m.netAmount
    | .no => noPoolBefore - tokensReceived
  let effectivePrice ← calculateEffectivePrice m.netAmount tokensReceived
  let slippage := calculateSlippage priceBeforeBet effectivePrice
  let newYesPrice ← calculateYesPrice yesPoolAfter noPoolAfter
  let newNoPrice ← calculateNoPrice yesPoolAfter noPoolAfter
  _ ← placeBetPostCheck yesPoolAfter noPoolAfter k
  pure { grossAmount := betAmount, netAmount := m.netAmount,
         houseFee := m.houseFee, tokensReceived := tokensReceived,
         effectivePrice := effectivePrice, slippage := slippage,
         priceBeforeBet := priceBeforeBet, yesPoolAfter := yesPoolAfter,
         noPoolAfter := noPoolAfter, newYesPrice := newYesPrice,
         newNoPrice := newNoPrice }

/-! ## BettingService.executeTransaction and updatePosition
(src/unnamed/part_003, lines 369-538)

The six persistence writes go to one market row, a bets table, one user
balance, one (user, market, outcome) position row, a transactions table
and a price-history table.  Each write may fail; the source checks the
error of the first three writes and ignores the error of the last three,
with no rollback of earlier writes.  A `FailPattern` says which writes
fail; the model returns the error surfaced to the caller (if any)
together with the database state actually left visible. -/

/-- The columns of the `markets` row touched by the commit. -/
structure MarketRow where
  yes_pool : ℚ
  no_pool : ℚ
  yes_price : ℚ
  no_price : ℚ
  total_volume : ℚ
  deriving DecidableEq, Repr

/-- The numeric columns of an inserted `bets` row. -/
structure BetRow where
  amount : ℚ
  price : ℚ
  potential_return : ℚ
  yes_pool_before : ℚ
  no_pool_before : ℚ
  yes_pool_after : ℚ
  no_pool_after : ℚ
  effective_price : ℚ
  slippage : ℚ
  house_fee : ℚ
  deriving DecidableEq, Repr

/-- The numeric columns of the `positions` row for the fixed
(user, market, outcome) triple. -/
structure PositionRow where
  shares : ℚ
  total_invested : ℚ
  avg_price : ℚ
  current_value : ℚ
  deriving DecidableEq, Repr

/-- The numeric columns of an inserted `transactions` row. -/
structure TransactionRow where
  amount : ℚ
  balance_after : ℚ
  deriving DecidableEq, Repr

/-- The numeric columns of an inserted `price_history` row. -/
structure PriceHistoryRow where
  yes_price : ℚ
  no_price : ℚ
  yes_pool : ℚ
  no_pool : ℚ
  total_volume : ℚ
  deriving DecidableEq, Repr

/-- Persistent state relevant to one settlement: the market row, the bets
of this market, the bettor's balance, the bettor's position row for this
outcome, the ledger, and the price history. -/
structure DbState where
  market : MarketRow
  bets : List BetRow
  balance : ℚ
  position : Option PositionRow
  transactions : List TransactionRow
  price_history : List PriceHistoryRow
  deriving DecidableEq, Repr

/-- Which of the six persistence writes fail. -/
structure FailPattern where
  marketUpdate : Bool
  betInsert : Bool
  balanceUpdate : Bool
  positionWrite : Bool
  txInsert : Bool
  phInsert : Bool
  deriving DecidableEq, Repr

/-- The parameters `placeBet` passes into `executeTransaction`. -/
structure TxParams where
  betAmount : ℚ
  netAmount : ℚ
  houseFee : ℚ
  tokensReceived : ℚ
  effectivePrice : ℚ
  slippage : ℚ
  priceBeforeBet : ℚ
  yesPoolBefore : ℚ
  noPoolBefore : ℚ
  yesPoolAfter : ℚ
  noPoolAfter : ℚ
  newYesPrice : ℚ
  newNoPrice : ℚ
  deriving DecidableEq, Repr

/-- `updatePosition(userId, marketId, outcome, amount, shares, avgPrice)`:
weighted-average update of an existing row, or insert of a fresh row with
`avg_price` set to the passed `avgPrice`.  The source never checks the
write's error, so a failed write leaves the row as it was. -/
def updatePosition (writeFails : Bool) (existing : Option PositionRow)
    (amount shares avgPrice : ℚ) : Option PositionRow :=
  match existing with
  | some p =>
      if writeFails then some p
      else
        let newShares := p.shares + shares
        let newTotalInvested := p.total_invested + amount
        let newAvgPrice := newTotalInvested / newShares
        some { shares := newShares, total_invested := newTotalInvested,
               avg_price := newAvgPrice, current_value := newShares * avgPrice }
  | none =>
      if writeFails then none
      else some { shares := shares, total_invested := amount,
                  avg_price := avgPrice, current_value := amount }

/-- `executeTransaction(params)`: the six sequential writes in source
order.  A failing market update, bet insert or balance update throws
(leaving every earlier write in place); failures of the position,
transaction-log and price-history writes are not checked and the call
still returns success. -/
def executeTransaction (f : FailPattern) (p : TxParams) (s : DbState) :
    Option Err × DbState :=
  if f.marketUpdate then (some .persistenceFailure, s)
  else
    let s1 : DbState := { s with market :=
      { yes_pool := p.yesPoolAfter, no_pool := p.noPoolAfter,
        yes_price := p.newYesPrice, no_price := p.newNoPrice,
        total_volume := s.market.total_volume + p.betAmount } }
    if f.betInsert then (some .persistenceFailure, s1)
    else
      let bet : BetRow :=
        { amount := p.betAmount, price := p.priceBeforeBet,
          potential_return := p.tokensReceived,
          yes_pool_before := p.yesPoolBefore, no_pool_before := p.noPoolBefore,
          yes_pool_after := p.yesPoolAfter, no_pool_after := p.noPoolAfter,
          effective_price := p.effectivePrice, slippage := p.slippage,
          house_fee := p.houseFee }
      let s2 : DbState := { s1 with bets := s1.bets ++ [bet] }
      let newBalance := s.balance - p.betAmount
      if f.balanceUpdate then (some .persistenceFailure, s2)
      else
        let s3 : DbState := { s2 with balance := newBalance }
        let newPos : Option PositionRow :=
          updatePosition f.positionWrite s3.position
            p.netAmount p.tokensReceived p.effectivePrice
        let s4 : DbState := { s3 with position := newPos }
        let s5 : DbState :=
          if f.txInsert then s4
          else { s4 with transactions := s4.transactions ++
            [{ amount := p.betAmount, balance_after := newBalance }] }
        let s6 : DbState :=
          if f.phInsert then s5
          else { s5 with price_history := s5.price_history ++
            [{ yes_price := p.newYesPrice, no_price := p.newNoPrice,
               yes_pool := p.yesPoolAfter, no_pool := p.noPoolAfter,
               total_volume := s.market.total_volume + p.betAmount }] }
        (none, s6)

/-- A failure pattern where every write succeeds. -/
def noFailures : FailPattern :=
  { marketUpdate := false, betInsert := false, balanceUpdate := false,
    positionWrite := false, txInsert := false, phInsert := false }

/-- Sample settlement parameters used by the concrete commit scenarios. -/
def sampleParams : TxParams :=
  { betAmount := 100, netAmount := 98, houseFee := 2, tokensReceived := 90,
    effectivePrice := 49 / 94, slippage := 1 / 20, priceBeforeBet := 1 / 2,
    yesPoolBefore := 1000, noPoolBefore := 1000,
    yesPoolAfter := 910, noPoolAfter := 1098,
    newYesPrice := 549 / 1004, newNoPrice := 455 / 1004 }

/-- Sample database state used by the concrete commit scenarios. -/
def sampleState : DbState :=
  { market := { yes_pool := 1000, no_pool := 1000, yes_price := 1 / 2,
                no_price := 1 / 2, total_volume := 0 },
    bets := [], balance := 500, position := none,
    transactions := [], price_history := [] }

/-! ## Helper lemmas (shared) -/

/-- For a positive bet the token computation is the bare if-chain on
`out - k / (inp + b)`. -/
lemma calculateTokensReceived_pos (b inp out k : ℚ) (hb : 0 < b) :
    calculateTokensReceived b inp out k =
      if out - k / (inp + b) ≥ out then .error .poolExhausted
      else if out - k / (inp + b) ≤ 0 then .error .poolExhausted
      else .ok (out - k / (inp + b)) := by
  unfold calculateTokensReceived
  rw [if_neg (not_le.mpr hb)]

/-- Inversion: a successful token computation returns exactly the CPMM
formula, strictly between 0 and the output reserve. -/
lemma calculateTokensReceived_ok (b inp out k t : ℚ) (hb : 0 < b)
    (h : calculateTokensReceived b inp out k = .ok t) :
    t = out - k / (inp + b) ∧ 0 < t ∧ t < out := by
  rw [calculateTokensReceived_pos b inp out k hb] at h
  split_ifs at h with c1 c2
  have ht := Except.ok.inj h
  push_neg at c1 c2
  refine ⟨ht.symm, ?_, ?_⟩
  · rw [← ht]; linarith
  · rw [← ht]; linarith

/-- Inversion for `calculateEffectivePrice`. -/
lemma calculateEffectivePrice_ok (b t e : ℚ) (ht : t ≠ 0)
    (h : calculateEffectivePrice b t = .ok e) : e = b / (b + t) := by
  unfold calculateEffectivePrice at h
  rw [if_neg ht] at h
  exact (Except.ok.inj h).symm

/-- Inversion for `calculateYesPrice`. -/
lemma calculateYesPrice_ok (y n p : ℚ) (ht : y + n ≠ 0)
    (h : calculateYesPrice y n = .ok p) : p = n / (y + n) := by
  unfold calculateYesPrice at h
  rw [if_neg ht] at h
  exact (Except.ok.inj h).symm

/-! ## Claim theorems -/

/-- C3: `tokensOut(betNet, inputReserve, outputReserve, k)` fails with
`InvalidAmount` when `betNet ≤ 0`; otherwise, with
`tokensOut = outputReserve - k / (inputReserve + betNet)`, it fails with
`PoolExhausted` when `tokensOut ≥ outputReserve` or `tokensOut ≤ 0`, and
in every remaining case returns exactly that value. -/
theorem tokensOut_contract (b inp out k : ℚ) :
    (b ≤ 0 → calculateTokensReceived b inp out k = .error .invalidAmount) ∧
    (0 < b →
      ((out - k / (inp + b) ≥ out ∨ out - k / (inp + b) ≤ 0) →
        calculateTokensReceived b inp out k = .error .poolExhausted) ∧
      (0 < out - k / (inp + b) → out - k / (inp + b) < out →
        calculateTokensReceived b inp out k = .ok (out - k / (inp + b)))) := by
  constructor
  · intro hb
    unfold calculateTokensReceived
    rw [if_pos hb]
  · intro hb
    rw [calculateTokensReceived_pos b inp out k hb]
    constructor
    · rintro (h | h)
      · rw [if_pos h]
      · split_ifs with h1
        · rfl
        · rfl
    · intro hpos hlt
      rw [if_neg (not_le.mpr hlt), if_neg (not_le.mpr hpos)]

/-- Witness for C3 at the concrete scenario-A trade. -/
theorem tokensOut_contract_witness :
    calculateTokensReceived 98 1000 1000 1000000 =
      .ok (1000 - 1000000 / (1000 + 98)) :=
  ((tokensOut_contract 98 1000 1000 1000000).2 (by norm_num)).2
    (by norm_num) (by norm_num)

/-- C7: for positive reserves both prices are returned, sum to 1 exactly
and lie strictly between 0 and 1; when the reserve total is 0 both price
functions fail. -/
theorem price_sum_and_bounds (y n : ℚ) :
    (0 < y → 0 < n →
      calculateYesPrice y n = .ok (n / (y + n)) ∧
      calculateNoPrice y n = .ok (y / (y + n)) ∧
      n / (y + n) + y / (y + n) = 1 ∧
      0 < n / (y + n) ∧ n / (y + n) < 1 ∧
      0 < y / (y + n) ∧ y / (y + n) < 1) ∧
    (y + n = 0 →
      calculateYesPrice y n = .error .degeneratePool ∧
      calculateNoPrice y n = .error .degeneratePool) := by
  constructor
  · intro hy hn
    have ht : 0 < y + n := by linarith
    have ht' : y + n ≠ 0 := ne_of_gt ht
    refine ⟨?_, ?_, ?_, ?_, ?_, ?_, ?_⟩
    · unfold calculateYesPrice; rw [if_neg ht']
    · unfold calculateNoPrice; rw [if_neg ht']
    · field_simp
      ring
    · positivity
    · rw [div_lt_one ht]; linarith
    · positivity
    · rw [div_lt_one ht]; linarith
  · intro h0
    constructor
    · unfold calculateYesPrice; rw [if_pos h0]
    · unfold calculateNoPrice; rw [if_pos h0]

/-- Witness for C7: the positive case at reserves (1, 1) and the
degenerate case at reserves (1, -1). -/
theorem price_sum_and_bounds_witness :
    (calculateYesPrice 1 1 = .ok (1 / (1 + 1)) ∧
      calculateNoPrice 1 1 = .ok (1 / (1 + 1)) ∧
      (1 : ℚ) / (1 + 1) + 1 / (1 + 1) = 1 ∧
      0 < (1 : ℚ) / (1 + 1) ∧ (1 : ℚ) / (1 + 1) < 1 ∧
      0 < (1 : ℚ) / (1 + 1) ∧ (1 : ℚ) / (1 + 1) < 1) ∧
    (calculateYesPrice 1 (-1) = .error .degeneratePool ∧
      calculateNoPrice 1 (-1) = .error .degeneratePool) :=
  ⟨(price_sum_and_bounds 1 1).1 (by norm_num) (by norm_num),
   (price_sum_and_bounds 1 (-1)).2 (by norm_num)⟩

/-- C10: with a valid target price, `initializeAsymmetricPool` throws a
pool-size range error exactly when `totalLiquidity / 2` is below 100 or
above 100000; in particular any `totalLiquidity < 200` fails. -/
theorem asymmetric_pool_size_guard (tl p : ℚ) (hp0 : 0 < p) (hp1 : p < 1) :
    ((initializeAsymmetricPool tl p = .error .poolTooSmall ∨
      initializeAsymmetricPool tl p = .error .poolTooLarge) ↔
      (tl / 2 < 100 ∨ tl / 2 > 100000)) ∧
    (tl < 200 → initializeAsymmetricPool tl p = .error .poolTooSmall) := by
  have hguard : ¬ (p ≤ 0 ∨ p ≥ 1) := by
    push_neg
    exact ⟨hp0, hp1⟩
  have hmain : ∀ q : ℚ, q / 2 < 100 →
      initializeAsymmetricPool q p = .error .poolTooSmall := by
    intro q hq
    unfold initializeAsymmetricPool validatePoolSize MIN_POOL_SIZE
    rw [if_neg hguard, if_pos hq]
    rfl
  constructor
  · unfold initializeAsymmetricPool validatePoolSize MIN_POOL_SIZE MAX_POOL_SIZE
    rw [if_neg hguard]
    split_ifs with h1 h2
    · simp [bind, Except.bind, h1]
    · simp [bind, Except.bind, h2]
    · push_neg at h1 h2
      simp [bind, Except.bind, pure, Except.pure]
      exact ⟨h1, h2⟩
  · intro h200
    exact hmain tl (by linarith)

/-- Witness for C10: total liquidity 100 with a fair target price is
rejected for pool size. -/
theorem asymmetric_pool_size_guard_witness :
    initializeAsymmetricPool 100 (1 / 2) = .error .poolTooSmall :=
  (asymmetric_pool_size_guard 100 (1 / 2) (by norm_num) (by norm_num)).2
    (by norm_num)

/-- C6: whenever `executeTransaction` reports success, the visible balance
is the old balance minus the gross bet amount. -/
theorem committed_bet_debits_gross (f : FailPattern) (p : TxParams)
    (s : DbState) (h : (executeTransaction f p s).1 = none) :
    (executeTransaction f p s).2.balance = s.balance - p.betAmount := by
  obtain ⟨m, bi, bu, pw, ti, pi⟩ := f
  cases m <;> cases bi <;> cases bu <;> cases pw <;> cases ti <;> cases pi <;>
    simp_all [executeTransaction]

/-- Witness for C6 at the sample commit. -/
theorem committed_bet_debits_gross_witness :
    (executeTransaction noFailures sampleParams sampleState).2.balance =
      sampleState.balance - sampleParams.betAmount :=
  committed_bet_debits_gross noFailures sampleParams sampleState (by rfl)

/-- Settlement parameters of a first unit bet: net 1, one token received,
effective price 1/2 (= 1 / (1 + 1)). -/
def unitBetParams : TxParams :=
  { betAmount := 100 / 98, netAmount := 1, houseFee := 2 / 98,
    tokensReceived := 1, effectivePrice := 1 / 2, slippage := 0,
    priceBeforeBet := 1 / 2, yesPoolBefore := 1000, noPoolBefore := 1000,
    yesPoolAfter := 999, noPoolAfter := 1001,
    newYesPrice := 1001 / 2000, newNoPrice := 999 / 2000 }

/-- C1 (code bug): the commit is not atomic.  When the bet-record insert
(second write) fails, the call is rejected but the market update stays
visible; and when the position write fails, the call still reports
success although the position effect is missing. -/
theorem commit_not_atomic :
    (executeTransaction { noFailures with betInsert := true }
        sampleParams sampleState).1 = some .persistenceFailure ∧
    (executeTransaction { noFailures with betInsert := true }
        sampleParams sampleState).2.market.no_pool = 1098 ∧
    sampleState.market.no_pool = 1000 ∧
    ((1098 : ℚ) ≠ 1000) ∧
    (executeTransaction { noFailures with positionWrite := true }
        sampleParams sampleState).1 = none ∧
    (executeTransaction { noFailures with positionWrite := true }
        sampleParams sampleState).2.position = none ∧
    updatePosition false sampleState.position sampleParams.netAmount
        sampleParams.tokensReceived sampleParams.effectivePrice ≠ none := by
  refine ⟨rfl, rfl, rfl, by norm_num, rfl, rfl, ?_⟩
  simp [updatePosition, sampleState]

/-- C4 counterexample: a committed first bet (net 1, one share) creates a
position whose stored `avg_price` is the effective price 1/2, which is
not `totalInvested / shares = 1 / 1`. -/
theorem position_create_avg_mismatch :
    calculateEffectivePrice 1 1 = .ok (1 / 2) ∧
    (executeTransaction noFailures unitBetParams sampleState).1 = none ∧
    (executeTransaction noFailures unitBetParams sampleState).2.position =
      some { shares := 1, total_invested := 1, avg_price := 1 / 2,
             current_value := 1 } ∧
    ((1 : ℚ) / 2 ≠ 1 / 1) := by
  refine ⟨?_, rfl, ?_, by norm_num⟩
  · norm_num [calculateEffectivePrice]
  · simp [executeTransaction, updatePosition, noFailures, unitBetParams,
      sampleState]

/-- C4 amended: updating an existing position stores
`avg_price = totalInvested / shares`; creating a fresh position stores
the bet's passed effective price as `avg_price`. -/
theorem position_upsert_avg_price (ex : PositionRow)
    (amount shares avgPrice : ℚ) :
    (∃ r, updatePosition false (some ex) amount shares avgPrice = some r ∧
      r.avg_price = r.total_invested / r.shares) ∧
    (∃ r, updatePosition false none amount shares avgPrice = some r ∧
      r.avg_price = avgPrice) :=
  ⟨⟨_, rfl, rfl⟩, ⟨_, rfl, rfl⟩⟩

/-- C2 counterexample: the post-trade product check of `placeBet` rejects
a state whose relative deviation is only 2·10⁻⁶ ≤ 10⁻⁴, because its
tolerance is the absolute 0.01, not the relative 0.01%. -/
theorem post_check_not_relative :
    placeBetPostCheck 100 (1000002 / 10000) 10000 =
      .error .invariantViolation ∧
    |(100 : ℚ) * (1000002 / 10000) - 10000| / 10000 ≤ 1 / 10000 := by
  have habs : |(100 : ℚ) * (1000002 / 10000) - 10000| = 1 / 50 := by
    rw [show (100 : ℚ) * (1000002 / 10000) - 10000 = 1 / 50 by norm_num]
    rw [abs_of_nonneg (by norm_num)]
  constructor
  · unfold placeBetPostCheck
    rw [if_pos (by rw [habs]; norm_num)]
  · rw [habs]
    norm_num

/-- C2 amended: for k > 0 the pre-trade check `validatePoolState` passes
exactly when both reserves are positive and the relative deviation
`|yes·no − k| / k` is at most 10⁻⁴, while the post-trade check of
`placeBet` passes exactly when the absolute deviation `|yes·no − k|` is
at most 0.01. -/
theorem invariant_checks_characterized (y n k y2 n2 : ℚ) (_hk : 0 < k) :
    (validatePoolState y n k = .ok true ↔
      (0 < y ∧ 0 < n ∧ |y * n - k| / k ≤ 1 / 10000)) ∧
    (placeBetPostCheck y2 n2 k = .ok () ↔ |y2 * n2 - k| ≤ 1 / 100) := by
  constructor
  · simp only [validatePoolState]
    split_ifs with h1 h2
    · simp only [reduceCtorEq, false_iff]
      rintro ⟨hy, hn, -⟩
      rcases h1 with h | h <;> linarith
    · simp only [reduceCtorEq, false_iff]
      rintro ⟨hy, hn, hrel⟩
      linarith
    · push_neg at h1 h2
      constructor
      · intro _
        exact ⟨h1.1, h1.2, by linarith⟩
      · intro _
        rfl
  · simp only [placeBetPostCheck]
    split_ifs with h
    · simp only [reduceCtorEq, false_iff, not_le]
      exact h
    · push_neg at h
      constructor
      · intro _
        exact h
      · intro _
        rfl

/-- Witness for C2 (amended) at an exact pool: both checks pass at
reserves (100, 100) with k = 10000. -/
theorem invariant_checks_characterized_witness :
    validatePoolState 100 100 10000 = .ok true ∧
    placeBetPostCheck 100 100 10000 = .ok () := by
  have habs : |(100 : ℚ) * 100 - 10000| = 0 := by
    rw [show (100 : ℚ) * 100 - 10000 = 0 by norm_num, abs_zero]
  constructor
  · exact (invariant_checks_characterized 100 100 10000 100 100
      (by norm_num)).1.mpr ⟨by norm_num, by norm_num, by rw [habs]; norm_num⟩
  · exact (invariant_checks_characterized 100 100 10000 100 100
      (by norm_num)).2.mpr (by rw [habs]; norm_num)

/-- C9 counterexample: with yesVolume = 0 and noVolume = 10 the yes-side
probability is 1 and `probabilityToOdds` throws, so no odds pair is
returned for this nonnegative pair with one zero side. -/
theorem odds_from_volume_zero_side :
    calculateOddsFromVolume 0 10 = .error .invalidProbability := by
  norm_num [calculateOddsFromVolume, probabilityToOdds, bind, Except.bind,
    pure, Except.pure]

/-- C9 amended: for nonnegative volumes, both odds are 2.0 when the total
is 0 and are the opposite-share reciprocals when both volumes are
positive; when exactly one volume is zero the call fails instead of
returning odds. -/
theorem odds_from_volume_characterized (yv nv : ℚ) (hy : 0 ≤ yv)
    (hn : 0 ≤ nv) :
    (yv + nv = 0 →
      calculateOddsFromVolume yv nv = .ok { yesOdds := 2, noOdds := 2 }) ∧
    (0 < yv → 0 < nv →
      calculateOddsFromVolume yv nv =
        .ok { yesOdds := (yv + nv) / nv, noOdds := (yv + nv) / yv }) ∧
    (yv = 0 → 0 < nv →
      calculateOddsFromVolume yv nv = .error .invalidProbability) ∧
    (0 < yv → nv = 0 →
      calculateOddsFromVolume yv nv = .error .invalidProbability) := by
  refine ⟨?_, ?_, ?_, ?_⟩
  · intro h0
    unfold calculateOddsFromVolume
    rw [if_pos h0]
  · intro hy' hn'
    have ht : 0 < yv + nv := by linarith
    have hyp : ¬ (nv / (yv + nv) ≤ 0 ∨ nv / (yv + nv) ≥ 1) := by
      push_neg
      refine ⟨by positivity, ?_⟩
      rw [div_lt_one ht]
      linarith
    have hnp : ¬ (yv / (yv + nv) ≤ 0 ∨ yv / (yv + nv) ≥ 1) := by
      push_neg
      refine ⟨by positivity, ?_⟩
      rw [div_lt_one ht]
      linarith
    unfold calculateOddsFromVolume probabilityToOdds
    rw [if_neg (ne_of_gt ht)]
    simp only [if_neg hyp, if_neg hnp, bind, Except.bind, pure, Except.pure,
      Except.ok.injEq]
    rw [one_div_div, one_div_div]
  · rintro rfl hn'
    unfold calculateOddsFromVolume probabilityToOdds
    rw [if_neg (by simpa using ne_of_gt hn')]
    rw [zero_add, div_self (ne_of_gt hn')]
    simp [bind, Except.bind]
  · rintro hy' rfl
    unfold calculateOddsFromVolume probabilityToOdds
    rw [if_neg (by simpa using ne_of_gt hy')]
    rw [add_zero, zero_div]
    simp [bind, Except.bind]

/-- Witness for C9 (amended): all four cases at concrete volumes. -/
theorem odds_from_volume_characterized_witness :
    calculateOddsFromVolume 0 0 = .ok { yesOdds := 2, noOdds := 2 } ∧
    calculateOddsFromVolume 1 3 =
      .ok { yesOdds := (1 + 3) / 3, noOdds := (1 + 3) / 1 } ∧
    calculateOddsFromVolume 0 10 = .error .invalidProbability ∧
    calculateOddsFromVolume 10 0 = .error .invalidProbability :=
  ⟨(odds_from_volume_characterized 0 0 (by norm_num) (by norm_num)).1
      (by norm_num),
   (odds_from_volume_characterized 1 3 (by norm_num) (by norm_num)).2.1
      (by norm_num) (by norm_num),
   (odds_from_volume_characterized 0 10 (by norm_num) (by norm_num)).2.2.1
      rfl (by norm_num),
   (odds_from_volume_characterized 10 0 (by norm_num) (by norm_num)).2.2.2
      (by norm_num) rfl⟩

/-- C5 counterexample: in scenario A the exact token output is
49000/549 = 89.25318…, which is strictly below 89.2533, so the claimed
decimal expansion 89.2533… is wrong (the formula itself is right). -/
theorem scenario_a_tokens_digits :
    (placeBetPure .yes 100 1000 1000 1000000).map BetComputation.tokensReceived
      = .ok (49000 / 549) ∧
    (49000 : ℚ) / 549 = 1000 - 1000000 / 1098 ∧
    (49000 : ℚ) / 549 < 892533 / 10000 := by
  refine ⟨?_, by norm_num, by norm_num⟩
  norm_num [placeBetPure, applyMargin, validatePoolState, calculateYesPrice,
    calculateNoPrice, calculateTokensReceived, calculateEffectivePrice,
    calculateSlippage, placeBetPostCheck, HOUSE_MARGIN, Except.map,
    bind, Except.bind, pure, Except.pure, Functor.map]

/-- C5 amended: scenario A settles with net 98, fee 2, tokensOut
= 1000 − 1000000/1098 = 49000/549 = 89.25318… (≈ 89.2532), new reserves
(500000/549 ≈ 910.75, 1098) and new yes price ≈ 0.5466. -/
theorem scenario_a_exact :
    (placeBetPure .yes 100 1000 1000 1000000).map BetComputation.netAmount
      = .ok 98 ∧
    (placeBetPure .yes 100 1000 1000 1000000).map BetComputation.houseFee
      = .ok 2 ∧
    (placeBetPure .yes 100 1000 1000 1000000).map BetComputation.tokensReceived
      = .ok (1000 - 1000000 / 1098) ∧
    (892531 : ℚ) / 10000 < 1000 - 1000000 / 1098 ∧
    (1000 : ℚ) - 1000000 / 1098 < 892532 / 10000 ∧
    (placeBetPure .yes 100 1000 1000 1000000).map BetComputation.yesPoolAfter
      = .ok (500000 / 549) ∧
    (placeBetPure .yes 100 1000 1000 1000000).map BetComputation.noPoolAfter
      = .ok 1098 ∧
    |(500000 : ℚ) / 549 - 91075 / 100| < 1 / 100 ∧
    (placeBetPure .yes 100 1000 1000 1000000).map BetComputation.newYesPrice
      = .ok (602802 / 1102802) ∧
    |(602802 : ℚ) / 1102802 - 5466 / 10000| < 1 / 10000 := by
  have e1 : |(500000 : ℚ) / 549 - 91075 / 100| < 1 / 100 := by
    rw [abs_of_nonpos (by norm_num)]
    norm_num
  have e2 : |(602802 : ℚ) / 1102802 - 5466 / 10000| < 1 / 10000 := by
    rw [abs_of_nonneg (by norm_num)]
    norm_num
  refine ⟨?_, ?_, ?_, by norm_num, by norm_num, ?_, ?_, e1, ?_, e2⟩ <;>
    norm_num [placeBetPure, applyMargin, validatePoolState, calculateYesPrice,
      calculateNoPrice, calculateTokensReceived, calculateEffectivePrice,
      calculateSlippage, placeBetPostCheck, HOUSE_MARGIN, Except.map,
      bind, Except.bind, pure, Except.pure, Functor.map]

/-- C8 counterexample: fixed reserves 1000/1000 with k = 1000050 (which
`validatePoolState` accepts: relative deviation 5·10⁻⁵ ≤ 10⁻⁴).  Bets 1
and 2 both succeed, yet the larger bet has the strictly smaller
slippage, so slippage is not strictly increasing in betNet. -/
theorem slippage_not_monotone :
    validatePoolState 1000 1000 1000050 = .ok true ∧
    calculateTokensReceived 1 1000 1000 1000050 = .ok (950 / 1001) ∧
    calculateTokensReceived 2 1000 1000 1000050 = .ok (325 / 167) ∧
    calculateYesPrice 1000 1000 = .ok (1 / 2) ∧
    calculateEffectivePrice 1 (950 / 1001) = .ok (1001 / 1951) ∧
    calculateEffectivePrice 2 (325 / 167) = .ok (334 / 659) ∧
    calculateSlippage (1 / 2) (334 / 659) <
      calculateSlippage (1 / 2) (1001 / 1951) := by
  have habs : |(1000 : ℚ) * 1000 - 1000050| = 50 := by
    rw [show (1000 : ℚ) * 1000 - 1000050 = -50 by norm_num]
    rw [abs_of_nonpos (by norm_num)]
    norm_num
  refine ⟨?_, ?_, ?_, ?_, ?_, ?_, ?_⟩
  · simp only [validatePoolState]
    rw [if_neg (by norm_num), habs, if_neg (by norm_num)]
  · norm_num [calculateTokensReceived]
  · norm_num [calculateTokensReceived]
  · norm_num [calculateYesPrice]
  · norm_num [calculateEffectivePrice]
  · norm_num [calculateEffectivePrice]
  · unfold calculateSlippage
    rw [if_neg (by norm_num), if_neg (by norm_num)]
    rw [abs_of_nonneg (by norm_num), abs_of_nonneg (by norm_num)]
    norm_num

/-- C8 amended: for fixed positive reserves, `tokensOut` is strictly
increasing in betNet whenever both trades succeed; and when k equals
`inputReserve × outputReserve` exactly (the at-rest CPMM state), the
slippage computed from the pre-trade marginal price and the effective
price is also strictly increasing.  (The slippage half genuinely needs
`k = inputReserve × outputReserve`: `slippage_not_monotone` shows it can
fail already for a k within the accepted 0.01% tolerance.) -/
theorem tokens_and_slippage_monotone
    (inp out k b1 b2 t1 t2 p0 e1 e2 : ℚ)
    (hinp : 0 < inp) (hout : 0 < out) (hk : 0 < k)
    (hb1 : 0 < b1) (hb12 : b1 < b2)
    (h1 : calculateTokensReceived b1 inp out k = .ok t1)
    (h2 : calculateTokensReceived b2 inp out k = .ok t2)
    (hp : calculateYesPrice out inp = .ok p0)
    (he1 : calculateEffectivePrice b1 t1 = .ok e1)
    (he2 : calculateEffectivePrice b2 t2 = .ok e2) :
    t1 < t2 ∧
    (k = inp * out →
      calculateSlippage p0 e1 < calculateSlippage p0 e2) := by
  have hb2 : 0 < b2 := lt_trans hb1 hb12
  have hd1 : 0 < inp + b1 := by linarith
  have hd2 : 0 < inp + b2 := by linarith
  obtain ⟨ht1, ht1pos, ht1lt⟩ :=
    calculateTokensReceived_ok b1 inp out k t1 hb1 h1
  obtain ⟨ht2, ht2pos, ht2lt⟩ :=
    calculateTokensReceived_ok b2 inp out k t2 hb2 h2
  have htot : 0 < out + inp := by linarith
  have hp0 : p0 = inp / (out + inp) :=
    calculateYesPrice_ok out inp p0 (ne_of_gt htot) hp
  have hp0pos : 0 < p0 := by
    rw [hp0]
    positivity
  have he1' : e1 = b1 / (b1 + t1) :=
    calculateEffectivePrice_ok b1 t1 e1 (ne_of_gt ht1pos) he1
  have he2' : e2 = b2 / (b2 + t2) :=
    calculateEffectivePrice_ok b2 t2 e2 (ne_of_gt ht2pos) he2
  have hmono : t1 < t2 := by
    rw [ht1, ht2]
    have hdiv : k / (inp + b2) < k / (inp + b1) := by
      rw [div_lt_div_iff₀ hd2 hd1]
      nlinarith
    linarith
  refine ⟨hmono, ?_⟩
  intro hkk
  subst hkk
  have t1e : t1 = out * b1 / (inp + b1) := by
    rw [ht1]
    field_simp
    ring
  have t2e : t2 = out * b2 / (inp + b2) := by
    rw [ht2]
    field_simp
    ring
  have hbt1 : 0 < b1 + t1 := by linarith
  have hbt2 : 0 < b2 + t2 := by linarith
  have ee1 : e1 = (inp + b1) / (inp + b1 + out) := by
    rw [he1', t1e]
    rw [div_eq_div_iff (ne_of_gt (by rw [t1e] at hbt1; exact hbt1))
      (by positivity)]
    field_simp
    ring
  have ee2 : e2 = (inp + b2) / (inp + b2 + out) := by
    rw [he2', t2e]
    rw [div_eq_div_iff (ne_of_gt (by rw [t2e] at hbt2; exact hbt2))
      (by positivity)]
    field_simp
    ring
  have denom1 : 0 < inp + b1 + out := by linarith
  have denom2 : 0 < inp + b2 + out := by linarith
  have hpe1 : p0 < e1 := by
    rw [hp0, ee1, div_lt_div_iff₀ htot denom1]
    nlinarith
  have hpe2 : p0 < e2 := by
    rw [hp0, ee2, div_lt_div_iff₀ htot denom2]
    nlinarith
  have he12 : e1 < e2 := by
    rw [ee1, ee2, div_lt_div_iff₀ denom1 denom2]
    nlinarith
  unfold calculateSlippage
  rw [if_neg (ne_of_gt hp0pos), if_neg (ne_of_gt hp0pos)]
  rw [abs_of_nonneg (div_nonneg (by linarith) hp0pos.le)]
  rw [abs_of_nonneg (div_nonneg (by linarith) hp0pos.le)]
  rw [div_lt_div_iff_of_pos_right hp0pos]
  linarith

/-- Witness for C8 (amended) at reserves 10/10, k = 100, bets 1 and 2. -/
theorem tokens_and_slippage_monotone_witness :
    (10 : ℚ) / 11 < 5 / 3 ∧
    ((100 : ℚ) = 10 * 10 →
      calculateSlippage (1 / 2) (11 / 21) < calculateSlippage (1 / 2) (6 / 11)) :=
  tokens_and_slippage_monotone 10 10 100 1 2 (10 / 11) (5 / 3) (1 / 2)
    (11 / 21) (6 / 11)
    (by norm_num) (by norm_num) (by norm_num) (by norm_num) (by norm_num)
    (by norm_num [calculateTokensReceived])
    (by norm_num [calculateTokensReceived])
    (by norm_num [calculateYesPrice])
    (by norm_num [calculateEffectivePrice])
    (by norm_num [calculateEffectivePrice])

end GoatmouthOdds
